import Mathlib

/-!
Verification of the authentication / profile service
(Express + Mongoose backend: `authController.js`, `profileController.js`,
`authRoutes.js` / `config/db.js`, `server.js`).

The controllers are shallowly embedded: the Mongo collection becomes a
`List User`, `findOne({email})` / `findById(id)` become `List.find?`, a
document `save` becomes a list append (insert) or an in-place replacement
by identifier (update).  Library capabilities that live outside the
controllers (the bcrypt pre-save hook and `matchPassword` of the User
model, `jwt.sign`) are modelled abstractly from the specification, as
noted on each definition.
-/

namespace AuthService

/-- A stored user document.  `password` holds the stored secret hash
(the model's pre-save hook hashes it before it reaches the store). -/
structure User where
  id : Nat
  name : String
  email : String
  password : String
  phone : Option String
  profilePicture : Option String
deriving Repr, DecidableEq

/-- The user collection: the Credential Store as a list of documents. -/
abbrev Store := List User

/-- `User.findOne({ email })`: first document with the given email. -/
def findOneByEmail (store : Store) (email : String) : Option User :=
  store.find? (fun u => u.email = email)

/-- `User.findById(id)`: first document with the given identifier. -/
def findById (store : Store) (id : Nat) : Option User :=
  store.find? (fun u => u.id = id)

/-- `user.save()` on an already-stored document: replace every document
carrying this document's identifier. -/
def saveUser (store : Store) (u : User) : Store :=
  store.map (fun v => if v.id = u.id then u else v)

/-- Modelled from the spec: the Secret Hasher (the bcrypt pre-save hook in
`models/User.js`, which is not part of the controller sources).  The spec
only requires a one-way hash that never equals the plaintext; it is
modelled as an injective tagging function. -/
def hashSecret (plain : String) : String :=
  "bcrypt$" ++ plain

/-- Modelled from the spec: `user.matchPassword(candidate)` of the User
model (not part of the controller sources) — verify a candidate secret
against the stored hash. -/
def matchPassword (candidate storedHash : String) : Bool :=
  hashSecret candidate = storedHash

/-- 30 days in seconds, the `expiresIn: '30d'` policy. -/
def thirtyDaysSec : Nat := 30 * 24 * 60 * 60

/-- Modelled from the spec: a signed Session Claim as produced by
`jwt.sign({ id }, key, { expiresIn: '30d' })` — the payload identifier,
the issue and expiry instants, and the signing key. -/
structure Token where
  userId : Nat
  iat : Nat
  exp : Nat
  key : String
deriving Repr, DecidableEq

/-- Modelled from the spec: `jwt.sign` with a 30-day expiry. -/
def jwtSign (id : Nat) (now : Nat) (key : String) : Token :=
  { userId := id, iat := now, exp := now + thirtyDaysSec, key := key }

/-- JSON bodies the controllers produce. -/
inductive RespBody where
  | err (msg : String)
  | tokenOnly (t : Token)
  | created (msg : String) (t : Token)
  | message (msg : String)
  | profile (fields : Option (List (String × String)))
deriving Repr, DecidableEq

/-- An HTTP response: status code and JSON body. -/
structure ApiResponse where
  status : Nat
  body : RespBody
deriving Repr, DecidableEq

/-- `login` from `authController.js` (lines 48–75): look the user up by
email; absent → 400 Invalid credentials; hash mismatch → 400 Invalid
credentials; match → 200 with a fresh 30-day token. -/
def login (store : Store) (email password : String) (now : Nat)
    (key : String) : ApiResponse :=
  match findOneByEmail store email with
  | none => ⟨400, .err "Invalid credentials"⟩
  | some user =>
    if matchPassword password user.password then
      ⟨200, .tokenOnly (jwtSign user.id now key)⟩
    else
      ⟨400, .err "Invalid credentials"⟩

/-- `signup` from `authController.js` (lines 8–43): reject an existing
email with 400; otherwise build the document (the model's pre-save hook
hashes the secret), save it, and answer 201 with a 30-day token for the
new identifier.  `newId` is the store-generated `_id`; `saveOk` is the
outcome of the single `user.save()` attempt (a failure is caught and
mapped to 500 with the store unchanged). -/
def signup (store : Store) (name email password : String)
    (phone profilePicture : Option String) (newId now : Nat)
    (key : String) (saveOk : Bool) : ApiResponse × Store :=
  match findOneByEmail store email with
  | some _ => (⟨400, .err "Email already exists"⟩, store)
  | none =>
    let user : User :=
      { id := newId, name := name, email := email,
        password := hashSecret password,
        phone := phone, profilePicture := profilePicture }
    if saveOk then
      (⟨201, .created "User created successfully" (jwtSign newId now key)⟩,
        store ++ [user])
    else
      (⟨500, .err "Server error"⟩, store)

/-- C1 -- Login with an unknown email and login with a known email but a
non-matching secret produce literally the same response: status 400 and
the same `Invalid credentials` error body, so the two failure causes are
indistinguishable to the caller. -/
theorem login_indistinguishable_failures
    (s1 s2 : Store) (e1 p1 e2 p2 : String) (now1 now2 : Nat)
    (k1 k2 : String) (u : User)
    (h1 : findOneByEmail s1 e1 = none)
    (h2 : findOneByEmail s2 e2 = some u)
    (h3 : matchPassword p2 u.password = false) :
    login s1 e1 p1 now1 k1 = ⟨400, .err "Invalid credentials"⟩ ∧
    login s2 e2 p2 now2 k2 = ⟨400, .err "Invalid credentials"⟩ ∧
    login s1 e1 p1 now1 k1 = login s2 e2 p2 now2 k2 := by
  refine ⟨?_, ?_, ?_⟩ <;> simp [login, h1, h2, h3]

/-- Witness for C1 at a concrete store: `b@x.com` is absent from the first
store, and `pw2` does not match the stored hash in the second. -/
theorem login_indistinguishable_failures_witness :
    login [] "b@x.com" "pw" 0 "k" = ⟨400, .err "Invalid credentials"⟩ ∧
    login [⟨1, "A", "a@x.com", hashSecret "pw1", none, none⟩]
        "a@x.com" "pw2" 7 "k2" = ⟨400, .err "Invalid credentials"⟩ ∧
    login [] "b@x.com" "pw" 0 "k" =
      login [⟨1, "A", "a@x.com", hashSecret "pw1", none, none⟩]
        "a@x.com" "pw2" 7 "k2" :=
  login_indistinguishable_failures [] [⟨1, "A", "a@x.com", hashSecret "pw1", none, none⟩]
    "b@x.com" "pw" "a@x.com" "pw2" 0 7 "k" "k2"
    ⟨1, "A", "a@x.com", hashSecret "pw1", none, none⟩
    (by decide) (by decide) (by decide)

/-- C2 -- A signup whose email lookup finds an existing user fails with
status 400 and the duplicate-email error, and the returned store is the
input store: no record created, none modified. -/
theorem signup_duplicate_no_side_effects
    (store : Store) (name email password : String)
    (phone profilePicture : Option String) (newId now : Nat)
    (key : String) (saveOk : Bool) (u : User)
    (h : findOneByEmail store email = some u) :
    signup store name email password phone profilePicture newId now key saveOk
      = (⟨400, .err "Email already exists"⟩, store) := by
  simp [signup, h]

/-- Witness for C2: a second signup with the already-stored email
`a@x.com` is rejected and leaves the one-element store untouched. -/
theorem signup_duplicate_no_side_effects_witness :
    signup [⟨1, "A", "a@x.com", hashSecret "pw1", none, none⟩]
        "B" "a@x.com" "pw2" none none 2 5 "k" true
      = (⟨400, .err "Email already exists"⟩,
          [⟨1, "A", "a@x.com", hashSecret "pw1", none, none⟩]) :=
  signup_duplicate_no_side_effects
    [⟨1, "A", "a@x.com", hashSecret "pw1", none, none⟩]
    "B" "a@x.com" "pw2" none none 2 5 "k" true
    ⟨1, "A", "a@x.com", hashSecret "pw1", none, none⟩ (by decide)

/-- Helper: the modelled hash never equals the plaintext (the tag makes
the hash strictly longer). -/
theorem hashSecret_ne_plain (s : String) : hashSecret s ≠ s := by
  intro hEq
  have hlen := congrArg String.length hEq
  simp [hashSecret, String.length_append] at hlen
  exact absurd hlen (by decide)

/-- C3 -- A signup with a fresh email whose save succeeds answers 201
with the success message and a token; the token's claimed identifier is
the new user's identifier and its expiry is 30 days after issuance; the
store gains exactly the new record, whose password field is the hash of
the secret and never the plaintext. -/
theorem signup_success_token_and_hash
    (store : Store) (name email password : String)
    (phone profilePicture : Option String) (newId now : Nat) (key : String)
    (h : findOneByEmail store email = none) :
    signup store name email password phone profilePicture newId now key true
      = (⟨201, .created "User created successfully" (jwtSign newId now key)⟩,
         store ++ [⟨newId, name, email, hashSecret password, phone, profilePicture⟩]) ∧
    (jwtSign newId now key).userId = newId ∧
    (jwtSign newId now key).exp = (jwtSign newId now key).iat + thirtyDaysSec ∧
    hashSecret password ≠ password := by
  refine ⟨?_, rfl, rfl, hashSecret_ne_plain password⟩
  simp [signup, h]

/-- Witness for C3: signing up `A` on the empty store. -/
theorem signup_success_token_and_hash_witness :
    signup [] "A" "a@x.com" "pw1" none none 1 100 "k" true
      = (⟨201, .created "User created successfully" (jwtSign 1 100 "k")⟩,
         [⟨1, "A", "a@x.com", hashSecret "pw1", none, none⟩]) ∧
    (jwtSign 1 100 "k").userId = 1 ∧
    (jwtSign 1 100 "k").exp = (jwtSign 1 100 "k").iat + thirtyDaysSec ∧
    hashSecret "pw1" ≠ "pw1" :=
  signup_success_token_and_hash [] "A" "a@x.com" "pw1" none none 1 100 "k" rfl

/-! ## Profile flow (`profileController.js`) -/

/-- The request body of `PUT /profile`: any subset of the five fields.
A `some ""` models a field that is present but empty (falsy in JS). -/
structure UpdateBody where
  name : Option String
  email : Option String
  phone : Option String
  profilePicture : Option String
  password : Option String
deriving Repr, DecidableEq

/-- `if (field) user.f = field` on a required string field: JS truthiness
means the assignment runs exactly when the field is present and
non-empty. -/
def applyField (field : Option String) (current : String) : String :=
  match field with
  | some s => if s = "" then current else s
  | none => current

/-- `if (field) user.f = field` on an optional stored field. -/
def applyOptField (field : Option String) (current : Option String) :
    Option String :=
  match field with
  | some s => if s = "" then current else some s
  | none => current

/-- `if (password) user.password = password` followed by the model's
pre-save hook (modelled from the spec): a provided non-empty secret is
stored as a new hash. -/
def applySecretField (field : Option String) (currentHash : String) :
    String :=
  match field with
  | some s => if s = "" then currentHash else hashSecret s
  | none => currentHash

/-- The email branch of `updateProfile` (lines 30–36): entered only when
`email` is truthy and differs from the current email; a conflicting
holder aborts with 400, otherwise the email is assigned. -/
def emailStep (store : Store) (u : User) :
    Option String → Except ApiResponse User
  | none => .ok u
  | some e =>
    if e = "" ∨ e = u.email then .ok u
    else
      match findOneByEmail store e with
      | some _ => .error ⟨400, .err "Email already exists"⟩
      | none => .ok { u with email := e }

/-- `updateProfile` from `profileController.js` (lines 19–50): fetch the
user by id (404 if absent), run the email branch, apply each remaining
field if truthy, then save once (`saveOk` is the outcome; a failure is
caught and mapped to 500 with the store unchanged). -/
def updateProfile (store : Store) (uid : Nat) (b : UpdateBody)
    (saveOk : Bool) : ApiResponse × Store :=
  match findById store uid with
  | none => (⟨404, .err "User not found"⟩, store)
  | some user =>
    match emailStep store user b.email with
    | .error resp => (resp, store)
    | .ok u1 =>
      let u2 : User :=
        { u1 with name := applyField b.name u1.name,
                  phone := applyOptField b.phone u1.phone,
                  profilePicture :=
                    applyOptField b.profilePicture u1.profilePicture,
                  password := applySecretField b.password u1.password }
      if saveOk then
        (⟨200, .message "Profile updated successfully"⟩, saveUser store u2)
      else
        (⟨500, .err "Unable to update profile"⟩, store)

/-- A document's serialized fields (the JSON of a fetched user). -/
def userFields (u : User) : List (String × String) :=
  [("_id", toString u.id), ("name", u.name), ("email", u.email),
   ("password", u.password)]
  ++ (match u.phone with | some p => [("phone", p)] | none => [])
  ++ (match u.profilePicture with
      | some p => [("profilePicture", p)] | none => [])

/-- `.select('-password')`: drop the named key from the projection. -/
def selectWithout (key : String) (fields : List (String × String)) :
    List (String × String) :=
  fields.filter (fun kv => kv.1 ≠ key)

/-- `getProfile` from `profileController.js` (lines 6–14):
`findById(...).select('-password')` then `res.json(user)` — a missing
user serializes as `null`, still with the default 200 status. -/
def getProfile (store : Store) (uid : Nat) : ApiResponse :=
  match findById store uid with
  | some u => ⟨200, .profile (some (selectWithout "password" (userFields u)))⟩
  | none => ⟨200, .profile none⟩

/-! ### Helper lemmas about the store operations -/

/-- A user found by `findById` carries the looked-up identifier. -/
theorem findById_id (store : Store) (uid : Nat) (u : User)
    (h : findById store uid = some u) : u.id = uid := by
  have := List.find?_some h
  simpa using this

/-- After a save of `w` (whose id is the looked-up one), looking the id up
again yields `w`, provided the id was present before the save. -/
theorem findById_saveUser (store : Store) (uid : Nat) (u w : User)
    (h : findById store uid = some u) (hw : w.id = uid) :
    findById (saveUser store w) uid = some w := by
  induction store with
  | nil => simp [findById] at h
  | cons v t ih =>
    by_cases hv : v.id = uid
    · have hvw : v.id = w.id := by rw [hv, hw]
      simp [findById, saveUser, hvw, hw]
    · have hvw : ¬ v.id = w.id := by rw [hw]; exact hv
      have ht : findById t uid = some u := by
        simpa [findById, hv] using h
      simpa [findById, saveUser, hvw, hv] using ih ht

/-- Saving the same document twice is the same as saving it once. -/
theorem saveUser_idem (store : Store) (w : User) :
    saveUser (saveUser store w) w = saveUser store w := by
  simp only [saveUser, List.map_map]
  congr 1
  funext v
  by_cases hv : v.id = w.id <;> simp [Function.comp, hv]

/-- The only error `emailStep` can produce is the duplicate-email 400. -/
theorem emailStep_error_eq (store : Store) (u : User) (e? : Option String)
    (r : ApiResponse) (h : emailStep store u e? = .error r) :
    r = ⟨400, .err "Email already exists"⟩ := by
  cases e? with
  | none => exact absurd h (by simp [emailStep])
  | some e =>
    by_cases hc : e = "" ∨ e = u.email
    · rw [show emailStep store u (some e) = .ok u by simp [emailStep, hc]] at h
      exact Except.noConfusion h
    · cases hf : findOneByEmail store e with
      | some v =>
        rw [show emailStep store u (some e)
            = .error ⟨400, .err "Email already exists"⟩ by
          simp [emailStep, hc, hf]] at h
        exact (Except.error.inj h).symm
      | none =>
        rw [show emailStep store u (some e) = .ok { u with email := e } by
          simp [emailStep, hc, hf]] at h
        exact Except.noConfusion h

/-- A successful `emailStep` only ever touches the email field. -/
theorem emailStep_ok_frame (store : Store) (u : User) (e? : Option String)
    (u1 : User) (h : emailStep store u e? = .ok u1) :
    u1.id = u.id ∧ u1.name = u.name ∧ u1.phone = u.phone ∧
    u1.profilePicture = u.profilePicture ∧ u1.password = u.password := by
  cases e? with
  | none =>
    cases (Except.ok.inj h)
    exact ⟨rfl, rfl, rfl, rfl, rfl⟩
  | some e =>
    by_cases hc : e = "" ∨ e = u.email
    · rw [show emailStep store u (some e) = .ok u by simp [emailStep, hc]] at h
      cases (Except.ok.inj h)
      exact ⟨rfl, rfl, rfl, rfl, rfl⟩
    · cases hf : findOneByEmail store e with
      | some v =>
        rw [show emailStep store u (some e)
            = .error ⟨400, .err "Email already exists"⟩ by
          simp [emailStep, hc, hf]] at h
        exact Except.noConfusion h
      | none =>
        rw [show emailStep store u (some e) = .ok { u with email := e } by
          simp [emailStep, hc, hf]] at h
        cases (Except.ok.inj h)
        exact ⟨rfl, rfl, rfl, rfl, rfl⟩

/-- On a successful `emailStep`, the resulting email is the JS
`applyField` of the request field over the current email. -/
theorem emailStep_ok_email (store : Store) (u : User) (e? : Option String)
    (u1 : User) (h : emailStep store u e? = .ok u1) :
    u1.email = applyField e? u.email := by
  cases e? with
  | none => cases (Except.ok.inj h); rfl
  | some e =>
    by_cases hc : e = "" ∨ e = u.email
    · rw [show emailStep store u (some e) = .ok u by simp [emailStep, hc]] at h
      cases (Except.ok.inj h)
      rcases hc with hc | hc <;> simp [applyField, hc]
    · have hne : ¬ e = "" := fun hx => hc (Or.inl hx)
      cases hf : findOneByEmail store e with
      | some v =>
        rw [show emailStep store u (some e)
            = .error ⟨400, .err "Email already exists"⟩ by
          simp [emailStep, hc, hf]] at h
        exact Except.noConfusion h
      | none =>
        rw [show emailStep store u (some e) = .ok { u with email := e } by
          simp [emailStep, hc, hf]] at h
        cases (Except.ok.inj h)
        simp [applyField, hne]

/-- When the email field is truthy, different from the current email, and
another stored user holds it, `emailStep` fails with the duplicate 400. -/
theorem emailStep_conflict (store : Store) (u : User) (e : String)
    (v : User) (hne : e ≠ "") (hdiff : e ≠ u.email)
    (hf : findOneByEmail store e = some v) :
    emailStep store u (some e) = .error ⟨400, .err "Email already exists"⟩ := by
  simp [emailStep, hne, hdiff, hf]

/-- C4 (amended) -- On every `updateProfile` call that succeeds (status
200) the saved record is exactly the fetched record with each of the five
fields passed through apply-if-truthy: a field present with a non-empty
value is applied (the secret as a fresh hash), and a field absent or
present-but-empty leaves the stored value unchanged. -/
theorem updateProfile_applies_truthy_fields
    (store : Store) (uid : Nat) (b : UpdateBody) (saveOk : Bool)
    (u w : User)
    (h1 : findById store uid = some u)
    (h2 : (updateProfile store uid b saveOk).1.status = 200)
    (h3 : findById (updateProfile store uid b saveOk).2 uid = some w) :
    w = { u with
          name := applyField b.name u.name,
          email := applyField b.email u.email,
          phone := applyOptField b.phone u.phone,
          profilePicture := applyOptField b.profilePicture u.profilePicture,
          password := applySecretField b.password u.password } := by
  cases hE : emailStep store u b.email with
  | error r =>
    rw [emailStep_error_eq store u b.email r hE] at hE
    simp [updateProfile, h1, hE] at h2
  | ok u1 =>
    cases saveOk with
    | false => simp [updateProfile, h1, hE] at h2
    | true =>
      obtain ⟨hid, hname, hphone, hpic, hpass⟩ :=
        emailStep_ok_frame store u b.email u1 hE
      have hmail := emailStep_ok_email store u b.email u1 hE
      have hup : (updateProfile store uid b true).2 =
          saveUser store
            { u1 with name := applyField b.name u1.name,
                      phone := applyOptField b.phone u1.phone,
                      profilePicture :=
                        applyOptField b.profilePicture u1.profilePicture,
                      password := applySecretField b.password u1.password } := by
        simp [updateProfile, h1, hE]
      rw [hup] at h3
      have hid2 : (⟨u1.id, applyField b.name u1.name, u1.email,
          applySecretField b.password u1.password,
          applyOptField b.phone u1.phone,
          applyOptField b.profilePicture u1.profilePicture⟩ : User).id = uid := by
        simpa [hid] using findById_id store uid u h1
      have := findById_saveUser store uid u _ h1 hid2
      rw [this] at h3
      cases (Option.some.inj h3)
      simp [hid, hname, hphone, hpic, hpass, hmail]

/-- Witness for C4's amended theorem: a body carrying all five fields
with non-empty values rewrites every field of the stored record. -/
theorem updateProfile_applies_truthy_fields_witness :
    (⟨1, "N", "n@x.com", hashSecret "pw2", some "555", some "pic"⟩ : User)
      = { (⟨1, "A", "a@x.com", hashSecret "pw", none, none⟩ : User) with
          name := applyField (some "N") "A",
          email := applyField (some "n@x.com") "a@x.com",
          phone := applyOptField (some "555") none,
          profilePicture := applyOptField (some "pic") none,
          password := applySecretField (some "pw2") (hashSecret "pw") } :=
  updateProfile_applies_truthy_fields
    [⟨1, "A", "a@x.com", hashSecret "pw", none, none⟩] 1
    ⟨some "N", some "n@x.com", some "555", some "pic", some "pw2"⟩ true
    ⟨1, "A", "a@x.com", hashSecret "pw", none, none⟩
    ⟨1, "N", "n@x.com", hashSecret "pw2", some "555", some "pic"⟩
    (by decide) (by decide) (by decide)

/-- C4 counterexample -- The claim as stated fails on a present-but-empty
field: with body `{name: ""}` the name field is present, yet the call
succeeds and the stored record still carries the old non-empty name,
because `if (name)` tests JS truthiness, not presence. -/
theorem updateProfile_present_empty_name_ignored :
    (UpdateBody.name ⟨some "", none, none, none, none⟩ = some "") ∧
    (updateProfile [⟨1, "A", "a@x.com", hashSecret "pw", none, none⟩] 1
        ⟨some "", none, none, none, none⟩ true).1.status = 200 ∧
    findById (updateProfile [⟨1, "A", "a@x.com", hashSecret "pw", none, none⟩] 1
        ⟨some "", none, none, none, none⟩ true).2 1
      = some ⟨1, "A", "a@x.com", hashSecret "pw", none, none⟩ ∧
    ("A" : String) ≠ "" := by decide

/-- C5 -- Updating only the name to a (non-empty) `s` answers 200 and
stores exactly the old record with the new name — email, phone, picture
and password hash untouched — and running the identical call a second
time answers 200 again and leaves the store bit-for-bit the same. -/
theorem updateProfile_name_twice_idempotent
    (store : Store) (uid : Nat) (u : User) (s : String)
    (h1 : findById store uid = some u) (hs : s ≠ "") :
    updateProfile store uid ⟨some s, none, none, none, none⟩ true
      = (⟨200, .message "Profile updated successfully"⟩,
         saveUser store { u with name := s }) ∧
    findById (saveUser store { u with name := s }) uid
      = some { u with name := s } ∧
    updateProfile (saveUser store { u with name := s }) uid
        ⟨some s, none, none, none, none⟩ true
      = (⟨200, .message "Profile updated successfully"⟩,
         saveUser store { u with name := s }) := by
  have hfind : findById (saveUser store { u with name := s }) uid
      = some { u with name := s } :=
    findById_saveUser store uid u { u with name := s } h1 (findById_id store uid u h1)
  refine ⟨?_, hfind, ?_⟩
  · simp [updateProfile, h1, emailStep, applyField, applyOptField,
      applySecretField, hs]
  · have h2 : updateProfile (saveUser store { u with name := s }) uid
        ⟨some s, none, none, none, none⟩ true
        = (⟨200, .message "Profile updated successfully"⟩,
           saveUser (saveUser store { u with name := s }) { u with name := s }) := by
      simp [updateProfile, hfind, emailStep, applyField, applyOptField,
        applySecretField, hs]
    rw [h2, saveUser_idem]

/-- Witness for C5 at the literal body `{name: "X"}` on a one-user store. -/
theorem updateProfile_name_twice_idempotent_witness :
    updateProfile [⟨1, "A", "a@x.com", hashSecret "pw", some "555", none⟩] 1
        ⟨some "X", none, none, none, none⟩ true
      = (⟨200, .message "Profile updated successfully"⟩,
         saveUser [⟨1, "A", "a@x.com", hashSecret "pw", some "555", none⟩]
           ⟨1, "X", "a@x.com", hashSecret "pw", some "555", none⟩) ∧
    findById (saveUser [⟨1, "A", "a@x.com", hashSecret "pw", some "555", none⟩]
        ⟨1, "X", "a@x.com", hashSecret "pw", some "555", none⟩) 1
      = some ⟨1, "X", "a@x.com", hashSecret "pw", some "555", none⟩ ∧
    updateProfile (saveUser [⟨1, "A", "a@x.com", hashSecret "pw", some "555", none⟩]
        ⟨1, "X", "a@x.com", hashSecret "pw", some "555", none⟩) 1
        ⟨some "X", none, none, none, none⟩ true
      = (⟨200, .message "Profile updated successfully"⟩,
         saveUser [⟨1, "A", "a@x.com", hashSecret "pw", some "555", none⟩]
           ⟨1, "X", "a@x.com", hashSecret "pw", some "555", none⟩) :=
  updateProfile_name_twice_idempotent
    [⟨1, "A", "a@x.com", hashSecret "pw", some "555", none⟩] 1
    ⟨1, "A", "a@x.com", hashSecret "pw", some "555", none⟩ "X"
    (by decide) (by decide)

/-- C6 (amended) -- When the request email is present with a non-empty
value and differs from the current email, the uniqueness lookup is
re-run: a conflicting holder makes the call fail with the duplicate 400
and the store is returned unchanged (nothing saved); with no conflict the
saved record carries the new email. -/
theorem updateProfile_email_uniqueness
    (store : Store) (uid : Nat) (b : UpdateBody) (saveOk : Bool)
    (u : User) (e : String)
    (h1 : findById store uid = some u)
    (hb : b.email = some e) (hne : e ≠ "") (hdiff : e ≠ u.email) :
    (∀ v, findOneByEmail store e = some v →
      updateProfile store uid b saveOk
        = (⟨400, .err "Email already exists"⟩, store)) ∧
    (findOneByEmail store e = none → saveOk = true →
      (updateProfile store uid b saveOk).1
          = ⟨200, .message "Profile updated successfully"⟩ ∧
      ∀ w, findById (updateProfile store uid b saveOk).2 uid = some w →
        w.email = e) := by
  constructor
  · intro v hf
    have hE := emailStep_conflict store u e v hne hdiff hf
    rw [← hb] at hE
    simp [updateProfile, h1, hE]
  · intro hf hsave
    subst hsave
    have hE : emailStep store u b.email = .ok { u with email := e } := by
      rw [hb]; simp [emailStep, hne, hdiff, hf]
    refine ⟨by simp [updateProfile, h1, hE], ?_⟩
    intro w hw
    have hup : (updateProfile store uid b true).2 =
        saveUser store
          { { u with email := e } with
            name := applyField b.name u.name,
            phone := applyOptField b.phone u.phone,
            profilePicture := applyOptField b.profilePicture u.profilePicture,
            password := applySecretField b.password u.password } := by
      simp [updateProfile, h1, hE]
    rw [hup] at hw
    have hid2 : ({ { u with email := e } with
        name := applyField b.name u.name,
        phone := applyOptField b.phone u.phone,
        profilePicture := applyOptField b.profilePicture u.profilePicture,
        password := applySecretField b.password u.password } : User).id = uid := by
      simpa using findById_id store uid u h1
    rw [findById_saveUser store uid u _ h1 hid2] at hw
    cases (Option.some.inj hw)
    rfl

/-- Witness for C6's amended theorem: changing `a@x.com` to the already
taken `b@x.com` is rejected and the two-user store is untouched. -/
theorem updateProfile_email_uniqueness_witness :
    updateProfile
        [⟨1, "A", "a@x.com", hashSecret "pw", none, none⟩,
         ⟨2, "B", "b@x.com", hashSecret "pw2", none, none⟩] 1
        ⟨none, some "b@x.com", none, none, none⟩ true
      = (⟨400, .err "Email already exists"⟩,
         [⟨1, "A", "a@x.com", hashSecret "pw", none, none⟩,
          ⟨2, "B", "b@x.com", hashSecret "pw2", none, none⟩]) :=
  (updateProfile_email_uniqueness
    [⟨1, "A", "a@x.com", hashSecret "pw", none, none⟩,
     ⟨2, "B", "b@x.com", hashSecret "pw2", none, none⟩] 1
    ⟨none, some "b@x.com", none, none, none⟩ true
    ⟨1, "A", "a@x.com", hashSecret "pw", none, none⟩ "b@x.com"
    (by decide) rfl (by decide) (by decide)).1
    ⟨2, "B", "b@x.com", hashSecret "pw2", none, none⟩ (by decide)

/-- C6 counterexample -- The claim as stated fails on a present-but-empty
email: with body `{email: ""}` the email is present and differs from the
current `a@x.com`, yet no uniqueness lookup can have any effect — the
call succeeds and the stored email is unchanged (`if (email && ...)`
tests JS truthiness, not presence). -/
theorem updateProfile_present_empty_email_ignored :
    (UpdateBody.email ⟨none, some "", none, none, none⟩ = some "") ∧
    ("" : String) ≠ "a@x.com" ∧
    (updateProfile [⟨1, "A", "a@x.com", hashSecret "pw", none, none⟩] 1
        ⟨none, some "", none, none, none⟩ true).1.status = 200 ∧
    findById (updateProfile [⟨1, "A", "a@x.com", hashSecret "pw", none, none⟩] 1
        ⟨none, some "", none, none, none⟩ true).2 1
      = some ⟨1, "A", "a@x.com", hashSecret "pw", none, none⟩ := by decide

/-- C7 -- An authenticated profile read whose identity resolves to a
stored user answers 200 with the record projected without the password
field: the projection is exactly the id/name/email (plus the present
optional fields) pairs, and no pair keyed `password` survives. -/
theorem getProfile_omits_password
    (store : Store) (uid : Nat) (u : User)
    (h : findById store uid = some u) :
    getProfile store uid
      = ⟨200, .profile (some (selectWithout "password" (userFields u)))⟩ ∧
    selectWithout "password" (userFields u)
      = [("_id", toString u.id), ("name", u.name), ("email", u.email)]
        ++ (match u.phone with | some p => [("phone", p)] | none => [])
        ++ (match u.profilePicture with
            | some p => [("profilePicture", p)] | none => []) ∧
    "password" ∉ (selectWithout "password" (userFields u)).map Prod.fst := by
  refine ⟨by simp [getProfile, h], ?_, ?_⟩ <;>
    rcases u with ⟨uid', uname, uemail, upass, uphone, upic⟩ <;>
    cases uphone <;> cases upic <;>
    simp [selectWithout, userFields]

/-- Witness for C7 on a user with a phone and no picture. -/
theorem getProfile_omits_password_witness :
    getProfile [⟨1, "A", "a@x.com", hashSecret "pw", some "555", none⟩] 1
      = ⟨200, .profile (some (selectWithout "password"
          (userFields ⟨1, "A", "a@x.com", hashSecret "pw", some "555", none⟩)))⟩ ∧
    selectWithout "password"
        (userFields ⟨1, "A", "a@x.com", hashSecret "pw", some "555", none⟩)
      = [("_id", toString (1 : Nat)), ("name", "A"), ("email", "a@x.com")]
        ++ [("phone", "555")] ++ [] ∧
    "password" ∉ (selectWithout "password"
        (userFields ⟨1, "A", "a@x.com", hashSecret "pw", some "555", none⟩)).map
        Prod.fst :=
  getProfile_omits_password
    [⟨1, "A", "a@x.com", hashSecret "pw", some "555", none⟩] 1
    ⟨1, "A", "a@x.com", hashSecret "pw", some "555", none⟩ (by decide)

/-- C10 -- A profile read whose identifier no longer resolves to any
stored user still answers 200 — the body is the `null` serialization of
the missing document — rather than a 401, 404 or 500. -/
theorem getProfile_missing_user_200_null
    (store : Store) (uid : Nat) (h : findById store uid = none) :
    getProfile store uid = ⟨200, .profile none⟩ ∧
    (getProfile store uid).status ≠ 401 ∧
    (getProfile store uid).status ≠ 404 ∧
    (getProfile store uid).status ≠ 500 := by
  have h200 : getProfile store uid = ⟨200, .profile none⟩ := by
    simp [getProfile, h]
  exact ⟨h200, by rw [h200]; decide, by rw [h200]; decide, by rw [h200]; decide⟩

/-- Witness for C10: identifier 7 on a store holding only user 1. -/
theorem getProfile_missing_user_200_null_witness :
    getProfile [⟨1, "A", "a@x.com", hashSecret "pw", none, none⟩] 7
      = ⟨200, .profile none⟩ ∧
    (getProfile [⟨1, "A", "a@x.com", hashSecret "pw", none, none⟩] 7).status ≠ 401 ∧
    (getProfile [⟨1, "A", "a@x.com", hashSecret "pw", none, none⟩] 7).status ≠ 404 ∧
    (getProfile [⟨1, "A", "a@x.com", hashSecret "pw", none, none⟩] 7).status ≠ 500 :=
  getProfile_missing_user_200_null
    [⟨1, "A", "a@x.com", hashSecret "pw", none, none⟩] 7 (by decide)

/-! ## CORS preflight handling (`authRoutes.js`, `server.js`) -/

/-- The explicit allow-list of origins from `server.js`. -/
def allowedOrigins : List String :=
  ["https://frontend-three-zeta-94.vercel.app", "http://localhost:3000"]

/-- The CORS-relevant portion of an OPTIONS response: status plus the
`Access-Control-*` headers a handler may set. -/
structure PreflightResponse where
  status : Nat
  allowOrigin : Option String
  allowMethods : Option String
  allowHeaders : Option String
  allowCredentials : Option String
deriving Repr, DecidableEq

/-- `router.options('/signup')` from `authRoutes.js` (lines 8–13): sets
`Access-Control-Allow-Origin` to the request's own Origin header,
whatever it is — no allow-list check — plus fixed methods/headers. -/
def signupOptionsHandler (origin : Option String) : PreflightResponse :=
  { status := 200,
    allowOrigin := origin,
    allowMethods := some "POST, OPTIONS",
    allowHeaders := some "Content-Type, Authorization",
    allowCredentials := none }

/-- `allowedOrigins.includes(origin)`; an absent Origin is never listed. -/
def originAllowed (origin : Option String) : Bool :=
  match origin with
  | some o => allowedOrigins.contains o
  | none => false

/-- `app.options('*')` from `server.js` (second variant, lines 180–190):
echoes the origin and the allowed methods/headers only when the Origin is
in the allow-list; otherwise it answers 204 with no CORS headers. -/
def globalOptionsHandler (origin : Option String) : PreflightResponse :=
  if originAllowed origin then
    { status := 204,
      allowOrigin := origin,
      allowMethods := some "GET, POST, PUT, DELETE, OPTIONS",
      allowHeaders := some "Content-Type, Authorization, x-auth-token",
      allowCredentials := some "true" }
  else
    { status := 204, allowOrigin := none, allowMethods := none,
      allowHeaders := none, allowCredentials := none }

/-- C8 counterexample -- The claim as stated fails on the route-level
signup preflight handler: for the unlisted origin `http://evil.example`
it still sets `Access-Control-Allow-Origin` (echoing the origin), so CORS
headers are not restricted to the allow-list. -/
theorem signup_preflight_echoes_unlisted_origin :
    (signupOptionsHandler (some "http://evil.example")).allowOrigin
      = some "http://evil.example" ∧
    (signupOptionsHandler (some "http://evil.example")).allowMethods
      = some "POST, OPTIONS" ∧
    allowedOrigins.contains "http://evil.example" = false := by decide

/-- C8 (amended) -- The global `app.options('*')` handler, which is
registered before the router and therefore serves every preflight in the
server variant that has it, sets the CORS headers exactly for allow-listed
origins: a listed origin is echoed with the allowed methods/headers, an
unlisted one gets a bare 204 with no CORS headers at all. -/
theorem globalOptionsHandler_allowlist_only (o : String) :
    (o ∈ allowedOrigins →
      globalOptionsHandler (some o)
        = ⟨204, some o, some "GET, POST, PUT, DELETE, OPTIONS",
            some "Content-Type, Authorization, x-auth-token", some "true"⟩) ∧
    (o ∉ allowedOrigins →
      globalOptionsHandler (some o) = ⟨204, none, none, none, none⟩) := by
  constructor
  · intro hmem
    have : originAllowed (some o) = true := by
      simp only [originAllowed]
      rw [List.contains_eq_any_beq, List.any_eq_true]
      exact ⟨o, hmem, by simp⟩
    simp [globalOptionsHandler, this]
  · intro hmem
    have : originAllowed (some o) = false := by
      simp only [originAllowed]
      rw [List.contains_eq_any_beq]
      simp only [List.any_eq_false]
      intro x hx
      simp only [beq_iff_eq]
      intro hxo
      exact hmem (hxo ▸ hx)
    simp [globalOptionsHandler, this]

/-- Witness for C8's amended theorem: the listed `http://localhost:3000`
gets the CORS headers, the unlisted `http://evil.example` gets none. -/
theorem globalOptionsHandler_allowlist_only_witness :
    globalOptionsHandler (some "http://localhost:3000")
      = ⟨204, some "http://localhost:3000",
          some "GET, POST, PUT, DELETE, OPTIONS",
          some "Content-Type, Authorization, x-auth-token", some "true"⟩ ∧
    globalOptionsHandler (some "http://evil.example")
      = ⟨204, none, none, none, none⟩ :=
  ⟨(globalOptionsHandler_allowlist_only "http://localhost:3000").1 (by decide),
   (globalOptionsHandler_allowlist_only "http://evil.example").2 (by decide)⟩

/-! ## Startup connection bootstrap (`config/db.js`, `server.js`) -/

/-- Outcome of one bootstrap step: the connection is up, or the process
has been terminated with an exit code. -/
inductive BootOutcome where
  | connected
  | exitProcess (code : Nat)
deriving Repr, DecidableEq

/-- `connectDB` from `config/db.js`: throws if `MONGODB_URI` is missing,
otherwise awaits `mongoose.connect`; the surrounding catch logs and calls
`process.exit(1)`.  Every failure is swallowed by the catch, so the
returned promise never rejects to the caller — the `.error` constructor
is unreachable. -/
def connectDB (uriPresent connectOk : Bool) : Except String BootOutcome :=
  let attempt : Except String BootOutcome :=
    if !uriPresent then .error "MONGODB_URI is missing from .env file"
    else if connectOk then .ok .connected
    else .error "MongoDB Connection Error"
  match attempt with
  | .ok r => .ok r
  | .error _ => .ok (.exitProcess 1)

/-- Modelled from the spec: the connection step as §5/§9 intend it — the
missing rethrow in `config/db.js`: a failed attempt propagates the error
to the caller so the bootstrap loop can retry, instead of exiting. -/
def connectDBSpec (uriPresent connectOk : Bool) : Except String BootOutcome :=
  if !uriPresent then .error "MONGODB_URI is missing from .env file"
  else if connectOk then .ok .connected
  else .error "MongoDB Connection Error"

/-- Result of running the bootstrap: the final outcome and the list of
inter-attempt delays (in milliseconds) that were actually slept. -/
structure BootResult where
  outcome : BootOutcome
  delaysMs : List Nat
deriving Repr, DecidableEq

/-- `connectWithRetry` from `server.js` (first variant, `MAX_RETRIES =
5`, 5000 ms fixed delay), parametric in the connect step: a rejected
attempt is retried after a 5000 ms sleep while retries remain, then the
process exits 1.  `attempts i` tells whether the i-th `mongoose.connect`
would succeed; `remaining` counts the retries still allowed. -/
def connectWithRetryLoop (step : Bool → Bool → Except String BootOutcome)
    (uriPresent : Bool) (attempts : Nat → Bool) :
    Nat → Nat → List Nat → BootResult
  | i, remaining, ds =>
    match step uriPresent (attempts i) with
    | .ok outcome => ⟨outcome, ds⟩
    | .error _ =>
      match remaining with
      | r + 1 => connectWithRetryLoop step uriPresent attempts
          (i + 1) r (ds ++ [5000])
      | 0 => ⟨.exitProcess 1, ds⟩

/-- The bounded bootstrap of `server.js` (first variant) as shipped:
the loop over the real `connectDB`. -/
def bootstrapV1 (uriPresent : Bool) (attempts : Nat → Bool) : BootResult :=
  connectWithRetryLoop connectDB uriPresent attempts 0 5 []

/-- The same bounded loop over the spec-intended connect step (the one
that propagates failures instead of exiting). -/
def bootstrapV1Spec (uriPresent : Bool) (attempts : Nat → Bool) : BootResult :=
  connectWithRetryLoop connectDBSpec uriPresent attempts 0 5 []

/-- `connectWithRetry` from `server.js` (second variant, unbounded): the
loop is unrolled with explicit fuel, `none` meaning the loop was still
retrying when the fuel ran out. -/
def connectWithRetryUnbounded (uriPresent : Bool) (attempts : Nat → Bool) :
    Nat → Nat → List Nat → Option BootResult
  | i, fuel, ds =>
    match connectDB uriPresent (attempts i) with
    | .ok outcome => some ⟨outcome, ds⟩
    | .error _ =>
      match fuel with
      | f + 1 => connectWithRetryUnbounded uriPresent attempts
          (i + 1) f (ds ++ [5000])
      | 0 => none

/-- C9 -- As shipped, a store that is down on the first attempt makes
the process exit 1 immediately: zero retries, zero 5-second delays, in
the bounded and the unbounded variant alike, because `connectDB` catches
the failure and exits instead of rejecting; only the spec-intended
rethrowing step would make the loop perform its five 5000 ms-spaced
retries before exiting 1. -/
theorem bootstrap_exits_without_retry :
    bootstrapV1 true (fun _ => false) = ⟨.exitProcess 1, []⟩ ∧
    connectWithRetryUnbounded true (fun _ => false) 0 0 []
      = some ⟨.exitProcess 1, []⟩ ∧
    bootstrapV1Spec true (fun _ => false)
      = ⟨.exitProcess 1, [5000, 5000, 5000, 5000, 5000]⟩ := by
  refine ⟨rfl, rfl, rfl⟩

end AuthService
